import Mathlib

/-!
Verification of the audio transformation and pipeline-orchestration subsystem of
the assamese-to-english-voice-translation repository.

The development shallowly embeds the JavaScript source:
* `wavHelper.js` : `pcmToWav` (WAV container encoder), `base64ToArrayBuffer`
  (modelled by `atob` together with the `Int16Array` view construction);
* `audioPreprocess.js` : `preprocessAudioDSP` (ffmpeg conditioning stage with
  temp-file side effects, modelled over an explicit filesystem state);
* `index1.js` : `translateAndSynthesize`, `runTranslationPipeline` and the two
  HTTP endpoints, with the external collaborators (speech, translation, TTS)
  given as stubbed responses and collaborator invocations recorded in a trace;
* the unnamed server file : `speechToAssameseText`, `englishTextToSpeech` and
  the `/api/translate-audio` handler.

Machine integers are modelled as `Nat`/`Int` with explicit wrapping where the
JavaScript typed-array operations wrap.
-/

namespace VoiceTranslation

/-! ## Byte-level primitives (wavHelper.js) -/

/-- The two little-endian bytes stored by `DataView.setUint16` (wraps mod 2^16). -/
def u16le (n : Nat) : List Nat := [n % 256, n / 256 % 256]

/-- The four little-endian bytes stored by `DataView.setUint32` (wraps mod 2^32). -/
def u32le (n : Nat) : List Nat :=
  [n % 256, n / 256 % 256, n / 65536 % 256, n / 16777216 % 256]

/-- Char codes of a string, as written byte-by-byte by `writeString` in wavHelper.js. -/
def asciiCodes (s : String) : List Nat := s.data.map Char.toNat

/-- The 16-bit pattern an `Int16Array` stores for a signed sample value. -/
def int16Bits (s : Int) : Nat := (s % 65536).toNat

/-- `pcmToWav` from wavHelper.js: a 44-byte RIFF/WAVE header followed by the raw
little-endian sample bytes.  Field for field the header mirrors the DataView
writes of the source (offsets 0,4,8,12,16,20,22,24,28,32,34,36,40). -/
def pcmToWav (pcmData : List Int) (sampleRate : Nat) : List Nat :=
  let numChannels : Nat := 1
  let bitsPerSample : Nat := 16
  let byteRate : Nat := sampleRate * numChannels * bitsPerSample / 8
  let blockAlign : Nat := numChannels * bitsPerSample / 8
  let dataSize : Nat := pcmData.length * (bitsPerSample / 8)
  let totalSize : Nat := 44 + dataSize
  asciiCodes "RIFF" ++ u32le (totalSize - 8) ++ asciiCodes "WAVE" ++
    asciiCodes "fmt " ++ u32le 16 ++ u16le 1 ++ u16le numChannels ++
    u32le sampleRate ++ u32le byteRate ++ u16le blockAlign ++ u16le bitsPerSample ++
    asciiCodes "data" ++ u32le dataSize ++
    (pcmData.map (fun s => u16le (int16Bits s))).flatten

/-- Reading two bytes back as a little-endian signed 16-bit value (`Int16Array` read). -/
def bytesToInt16 (lo hi : Nat) : Int :=
  let u := lo % 256 + 256 * (hi % 256)
  if u < 32768 then (u : Int) else (u : Int) - 65536

/-- Reinterpret a byte list as little-endian signed 16-bit samples. -/
def decodePcm : List Nat → List Int
  | lo :: hi :: rest => bytesToInt16 lo hi :: decodePcm rest
  | _ => []

/-- Read an unsigned little-endian 16-bit field at a byte offset. -/
def readU16 (b : List Nat) (off : Nat) : Nat :=
  b.getD off 0 + 256 * b.getD (off + 1) 0

/-- Read an unsigned little-endian 32-bit field at a byte offset. -/
def readU32 (b : List Nat) (off : Nat) : Nat :=
  b.getD off 0 + 256 * b.getD (off + 1) 0 + 65536 * b.getD (off + 2) 0 +
    16777216 * b.getD (off + 3) 0

/-- Read a four-byte tag at a byte offset. -/
def tag4 (b : List Nat) (off : Nat) : List Nat :=
  [b.getD off 0, b.getD (off + 1) 0, b.getD (off + 2) 0, b.getD (off + 3) 0]

theorem asciiCodes_riff : asciiCodes "RIFF" = [82, 73, 70, 70] := rfl

theorem asciiCodes_wave : asciiCodes "WAVE" = [87, 65, 86, 69] := rfl

theorem asciiCodes_fmt : asciiCodes "fmt " = [102, 109, 116, 32] := rfl

theorem asciiCodes_data : asciiCodes "data" = [100, 97, 116, 97] := rfl

theorem int16_roundtrip (s : Int) (h1 : -32768 ≤ s) (h2 : s < 32768) :
    bytesToInt16 (int16Bits s % 256) (int16Bits s / 256 % 256) = s := by
  simp only [bytesToInt16, int16Bits]
  split <;> omega

theorem decodePcm_u16le_append (n : Nat) (rest : List Nat) :
    decodePcm (u16le n ++ rest) = bytesToInt16 (n % 256) (n / 256 % 256) :: decodePcm rest :=
  rfl

theorem sampleBytes_decode (S : List Int) (h : ∀ s ∈ S, -32768 ≤ s ∧ s < 32768) :
    decodePcm ((S.map (fun s => u16le (int16Bits s))).flatten) = S := by
  induction S with
  | nil => rfl
  | cons a t ih =>
      have ha := h a (by simp)
      rw [List.map_cons, List.flatten_cons, decodePcm_u16le_append,
        int16_roundtrip a ha.1 ha.2,
        ih (fun s hs => h s (List.mem_cons_of_mem a hs))]

theorem pcmToWav_drop44 (S : List Int) (R : Nat) :
    (pcmToWav S R).drop 44 = (S.map (fun s => u16le (int16Bits s))).flatten := by
  simp [pcmToWav, u16le, u32le, asciiCodes_riff, asciiCodes_wave, asciiCodes_fmt,
    asciiCodes_data]

/-- C2: encoding a sample sequence with `pcmToWav`, dropping the 44 header bytes
and reinterpreting the rest as little-endian int16 samples yields the original
sequence, for any sample rate and any sequence of in-range samples. -/
theorem claim_C2_roundtrip (S : List Int) (R : Nat)
    (h : ∀ s ∈ S, -32768 ≤ s ∧ s < 32768) :
    decodePcm ((pcmToWav S R).drop 44) = S := by
  rw [pcmToWav_drop44]
  exact sampleBytes_decode S h

/-- C2 witness: the round-trip theorem applied at a concrete sample list. -/
theorem claim_C2_roundtrip_witness :
    (∀ s ∈ ([100, -100, 32767, -32768] : List Int), -32768 ≤ s ∧ s < 32768) ∧
    decodePcm ((pcmToWav [100, -100, 32767, -32768] 24000).drop 44) =
      [100, -100, 32767, -32768] :=
  ⟨by decide, claim_C2_roundtrip [100, -100, 32767, -32768] 24000 (by decide)⟩

/-- C3: exact header layout of the encoder, plus the concrete empty/24000 case. -/
theorem claim_C3_header_exact (S : List Int) (R : Nat)
    (hN : 36 + 2 * S.length < 4294967296) (hR : 2 * R < 4294967296) :
    tag4 (pcmToWav S R) 0 = asciiCodes "RIFF" ∧
    readU32 (pcmToWav S R) 4 = 36 + 2 * S.length ∧
    tag4 (pcmToWav S R) 8 = asciiCodes "WAVE" ∧
    tag4 (pcmToWav S R) 12 = asciiCodes "fmt " ∧
    readU32 (pcmToWav S R) 16 = 16 ∧
    readU16 (pcmToWav S R) 20 = 1 ∧
    readU16 (pcmToWav S R) 22 = 1 ∧
    readU32 (pcmToWav S R) 24 = R ∧
    readU32 (pcmToWav S R) 28 = R * 2 ∧
    readU16 (pcmToWav S R) 32 = 2 ∧
    readU16 (pcmToWav S R) 34 = 16 ∧
    tag4 (pcmToWav S R) 36 = asciiCodes "data" ∧
    readU32 (pcmToWav S R) 40 = 2 * S.length ∧
    (pcmToWav [] 24000).length = 44 ∧
    readU32 (pcmToWav [] 24000) 4 = 36 ∧
    readU32 (pcmToWav [] 24000) 40 = 0 := by
  refine ⟨?_, ?_, ?_, ?_, ?_, ?_, ?_, ?_, ?_, ?_, ?_, ?_, ?_, by decide, by decide,
    by decide⟩ <;>
    simp [pcmToWav, tag4, readU32, readU16, u16le, u32le, asciiCodes_riff,
      asciiCodes_wave, asciiCodes_fmt, asciiCodes_data] <;>
    omega

/-- C3 witness: the header theorem applied at a concrete input. -/
theorem claim_C3_header_exact_witness :
    (36 + 2 * ([100, -100] : List Int).length < 4294967296 ∧
      2 * 24000 < 4294967296) ∧
    readU32 (pcmToWav [100, -100] 24000) 4 = 36 + 2 * ([100, -100] : List Int).length :=
  ⟨by decide, (claim_C3_header_exact [100, -100] 24000 (by decide) (by decide)).2.1⟩

/-! ## base64 decoding (wavHelper.js base64ToArrayBuffer, built on browser atob) -/

/-- Six-bit value of a base64 alphabet character; `none` for characters outside
the alphabet (where `atob` raises InvalidCharacterError). -/
def b64Val (c : Char) : Option Nat :=
  if 'A' ≤ c ∧ c ≤ 'Z' then some (c.toNat - 65)
  else if 'a' ≤ c ∧ c ≤ 'z' then some (c.toNat - 71)
  else if '0' ≤ c ∧ c ≤ '9' then some (c.toNat + 4)
  else if c = '+' then some 62
  else if c = '/' then some 63
  else none

/-- Decode a run of base64 characters after padding removal: four characters
give three bytes; a final group of three gives two bytes and a final group of
two gives one byte, leftover bits discarded (forgiving base64). -/
def b64Decode : List Char → Option (List Nat)
  | [] => some []
  | [_] => none
  | [c1, c2] => do
      let v1 ← b64Val c1
      let v2 ← b64Val c2
      pure [v1 * 4 + v2 / 16]
  | [c1, c2, c3] => do
      let v1 ← b64Val c1
      let v2 ← b64Val c2
      let v3 ← b64Val c3
      pure [v1 * 4 + v2 / 16, v2 % 16 * 16 + v3 / 4]
  | c1 :: c2 :: c3 :: c4 :: rest => do
      let v1 ← b64Val c1
      let v2 ← b64Val c2
      let v3 ← b64Val c3
      let v4 ← b64Val c4
      let tail ← b64Decode rest
      pure ([v1 * 4 + v2 / 16, v2 % 16 * 16 + v3 / 4, v3 % 4 * 64 + v4] ++ tail)

/-- ASCII whitespace stripped by forgiving-base64. -/
def isB64Space (c : Char) : Bool :=
  c = ' ' ∨ c = '\t' ∨ c = '\n' ∨ c = '\r' ∨ c.toNat = 12

/-- Browser `atob` (forgiving base64): strip ASCII whitespace, strip up to two
trailing padding characters when the length is a multiple of four, reject a
remaining length of 1 mod 4 and any character outside the alphabet. -/
def atob (s : String) : Option (List Nat) :=
  let cs := s.data.filter (fun c => !isB64Space c)
  let cs :=
    if cs.length % 4 = 0 then
      match cs.reverse with
      | '=' :: '=' :: r => r.reverse
      | '=' :: r => r.reverse
      | _ => cs
    else cs
  if cs.length % 4 = 1 then none else b64Decode cs

/-- Constructing `new Int16Array(buffer)` over decoded bytes: a RangeError when
the byte length is odd, otherwise the little-endian signed 16-bit sample view. -/
def int16ArrayOf (bytes : List Nat) : Except String (List Int) :=
  if bytes.length % 2 = 0 then .ok (decodePcm bytes)
  else .error "RangeError: byte length of Int16Array should be a multiple of 2"

/-- The synthesis-payload decode path of index1.js lines 71-72:
`base64ToArrayBuffer` followed by the `Int16Array` view. -/
def base64ToSamples (s : String) : Option (List Int) :=
  match atob s with
  | none => none
  | some bytes =>
    match int16ArrayOf bytes with
    | .error _ => none
    | .ok pcm16 => some pcm16

theorem decodePcm_length : ∀ bs : List Nat, (decodePcm bs).length = bs.length / 2
  | [] => rfl
  | [b] => by
      have h1 : decodePcm [b] = [] := rfl
      simp [h1]
  | _ :: _ :: rest => by
      simp only [decodePcm, List.length_cons, decodePcm_length rest]
      omega

/-- C10: when the decoded byte count of a valid base64 payload is odd, building
the Int16Array view fails with a RangeError and the decode path yields no sample
sequence; when it is even, the decode path yields exactly byteCount / 2 samples. -/
theorem claim_C10_parity (s : String) (bytes : List Nat) (h : atob s = some bytes) :
    (bytes.length % 2 = 1 →
      int16ArrayOf bytes =
        .error "RangeError: byte length of Int16Array should be a multiple of 2" ∧
      base64ToSamples s = none) ∧
    (bytes.length % 2 = 0 →
      base64ToSamples s = some (decodePcm bytes) ∧
      (decodePcm bytes).length = bytes.length / 2) := by
  constructor
  · intro hodd
    have hne : ¬ bytes.length % 2 = 0 := by omega
    exact ⟨by simp [int16ArrayOf, hne], by simp [base64ToSamples, h, int16ArrayOf, hne]⟩
  · intro heven
    exact ⟨by simp [base64ToSamples, h, int16ArrayOf, heven], decodePcm_length bytes⟩

/-- C10 witness: a one-byte payload is rejected by the view; a two-byte payload
yields one sample. -/
theorem claim_C10_parity_witness :
    (atob "AA==" = some [0] ∧ base64ToSamples "AA==" = none) ∧
    (atob "AAE=" = some [0, 1] ∧ base64ToSamples "AAE=" = some (decodePcm [0, 1]) ∧
      (decodePcm [0, 1]).length = 1) :=
  ⟨⟨by decide, ((claim_C10_parity "AA==" [0] (by decide)).1 (by decide)).2⟩,
   ⟨by decide, (claim_C10_parity "AAE=" [0, 1] (by decide)).2 (by decide)⟩⟩

/-! ## Filesystem model and the DSP conditioning stage (audioPreprocess.js) -/

/-- A filesystem as an association list from paths to byte contents. -/
abbrev FS := List (String × List Nat)

/-- `fs.existsSync`. -/
def existsSync (fs : FS) (p : String) : Bool := fs.any (fun e => e.1 = p)

/-- Remove a path from the filesystem. -/
def removeFile (fs : FS) (p : String) : FS := fs.filter (fun e => e.1 ≠ p)

/-- `fs.writeFileSync` (creates or overwrites). -/
def writeFileSync (fs : FS) (p : String) (content : List Nat) : FS :=
  (p, content) :: removeFile fs p

/-- `fs.readFileSync`: throws ENOENT when the path is absent. -/
def readFileSync (fs : FS) (p : String) : Except String (List Nat) :=
  match fs.find? (fun e => e.1 = p) with
  | some e => .ok e.2
  | none => .error ("ENOENT: " ++ p)

/-- `fs.unlinkSync`: throws ENOENT when the path is absent. -/
def unlinkSync (fs : FS) (p : String) : Except String FS :=
  if existsSync fs p then .ok (removeFile fs p) else .error ("ENOENT: " ++ p)

/-- The guarded cleanup used in the catch branch of the /api/translate-audio
handler: `if (fs.existsSync(p)) fs.unlinkSync(p)`. -/
def guardedUnlink (fs : FS) (p : String) : FS :=
  if existsSync fs p then removeFile fs p else fs

/-- The ffmpeg invocation assembled by `preprocessAudioDSP`. -/
structure FfmpegConfig where
  input : String
  audioFilters : List String
  audioFrequency : Nat
  audioChannels : Nat
  format : String
  output : String
deriving DecidableEq

/-- Outcome of running the external ffmpeg engine: its `end` event after writing
the output file, or its `error` event. -/
inductive EngineResult where
  | ok (outputBytes : List Nat)
  | err (msg : String)

/-- Path of the raw temp file of a DSP run (audioPreprocess.js line 32). -/
def rawPath (id : String) : String := "./temp/raw_" ++ id ++ ".wav"

/-- Path of the cleaned temp file of a DSP run (audioPreprocess.js line 33). -/
def cleanPath (id : String) : String := "./temp/clean_" ++ id ++ ".wav"

/-- The fixed audio filter chain passed to ffmpeg (audioPreprocess.js lines 39-45). -/
def dspFilters : List String :=
  ["highpass=f=80", "lowpass=f=8000", "afftdn", "silenceremove=1:0:-50dB", "loudnorm"]

/-- The full ffmpeg configuration of a DSP run (audioPreprocess.js lines 38-48). -/
def ffmpegCommand (id : String) : FfmpegConfig :=
  { input := rawPath id
    audioFilters := dspFilters
    audioFrequency := 16000
    audioChannels := 1
    format := "wav"
    output := cleanPath id }

/-- Result of one `preprocessAudioDSP` run: the resolved or rejected value, the
filesystem afterwards, and the engine invocation that was issued. -/
structure DSPRun where
  result : Except String (List Nat)
  fs : FS
  cmd : FfmpegConfig

/-- `preprocessAudioDSP` from audioPreprocess.js: writes the input buffer to the
raw temp file, runs the engine with the fixed configuration; on the `end` event
it reads back the cleaned file, unlinks both temp files and resolves; on the
`error` event it rejects (without any cleanup, as in the source). -/
def preprocessAudioDSP (fs : FS) (id : String) (inputBuffer : List Nat)
    (engine : FfmpegConfig → EngineResult) : DSPRun :=
  let inputPath := rawPath id
  let outputPath := cleanPath id
  let fs1 := writeFileSync fs inputPath inputBuffer
  let cmd := ffmpegCommand id
  match engine cmd with
  | .err m => { result := .error m, fs := fs1, cmd := cmd }
  | .ok outputBytes =>
    let fs2 := writeFileSync fs1 outputPath outputBytes
    match readFileSync fs2 outputPath with
    | .error m => { result := .error m, fs := fs2, cmd := cmd }
    | .ok cleanedBuffer =>
      match unlinkSync fs2 inputPath with
      | .error m => { result := .error m, fs := fs2, cmd := cmd }
      | .ok fs3 =>
        match unlinkSync fs3 outputPath with
        | .error m => { result := .error m, fs := fs3, cmd := cmd }
        | .ok fs4 => { result := .ok cleanedBuffer, fs := fs4, cmd := cmd }

/-- The success-path cleanup of `preprocessAudioDSP` in isolation
(audioPreprocess.js lines 53-54): two bare unlink calls. -/
def dspCleanup (fs : FS) (id : String) : Except String FS := do
  let fs1 ← unlinkSync fs (rawPath id)
  unlinkSync fs1 (cleanPath id)

/-- C1 evidence: on a successful engine run both temp files of the run id are
deleted before `preprocessAudioDSP` resolves, but when the engine reports an
error the stage rejects while the raw temp file written for this run id is
still on the filesystem: the temporary resource leaks on the failure path. -/
theorem claim_C1_dsp_error_leaks_raw_file :
    (preprocessAudioDSP [] "x" [0, 1] (fun _ => .ok [5, 6])).result = .ok [5, 6] ∧
    existsSync (preprocessAudioDSP [] "x" [0, 1] (fun _ => .ok [5, 6])).fs
        ("./temp/raw_x.wav") = false ∧
    existsSync (preprocessAudioDSP [] "x" [0, 1] (fun _ => .ok [5, 6])).fs
        ("./temp/clean_x.wav") = false ∧
    (preprocessAudioDSP [] "x" [0, 1] (fun _ => .err "ffmpeg exited with code 1")).result
        = .error "ffmpeg exited with code 1" ∧
    existsSync (preprocessAudioDSP [] "x" [0, 1]
        (fun _ => .err "ffmpeg exited with code 1")).fs ("./temp/raw_x.wav") = true := by
  refine ⟨?_, ?_, ?_, ?_, ?_⟩ <;> rfl

/-- C6: for every filesystem, run id, input buffer and engine, the conditioning
stage issues exactly the fixed ordered filter chain (high-pass 80 Hz, low-pass
8000 Hz, spectral noise reduction, silence removal below -50 dB, loudness
normalization) constrained to mono output at 16000 Hz in WAV format. -/
theorem claim_C6_fixed_filter_chain (fs : FS) (id : String) (inputBuffer : List Nat)
    (engine : FfmpegConfig → EngineResult) :
    (preprocessAudioDSP fs id inputBuffer engine).cmd.audioFilters =
      ["highpass=f=80", "lowpass=f=8000", "afftdn", "silenceremove=1:0:-50dB",
        "loudnorm"] ∧
    (preprocessAudioDSP fs id inputBuffer engine).cmd.audioFrequency = 16000 ∧
    (preprocessAudioDSP fs id inputBuffer engine).cmd.audioChannels = 1 ∧
    (preprocessAudioDSP fs id inputBuffer engine).cmd.format = "wav" ∧
    (preprocessAudioDSP fs id inputBuffer engine).cmd = ffmpegCommand id := by
  have hcmd : (preprocessAudioDSP fs id inputBuffer engine).cmd = ffmpegCommand id := by
    simp only [preprocessAudioDSP]
    repeat' split
    all_goals rfl
  exact ⟨by rw [hcmd]; rfl, by rw [hcmd]; rfl, by rw [hcmd]; rfl, by rw [hcmd]; rfl, hcmd⟩

theorem existsSync_removeFile (fs : FS) (p : String) :
    existsSync (removeFile fs p) p = false := by
  induction fs with
  | nil => rfl
  | cons e t ih =>
      by_cases h : e.1 = p
      · simp [existsSync, removeFile, h] at ih ⊢
      · simp [existsSync, removeFile, h] at ih ⊢

/-- C8 counterexample: the cleanup performed on the success path of the
conditioning stage uses bare unlink calls; applied to a state in which the
run's files were already released (or never materialized) it raises ENOENT
instead of being a no-op. -/
theorem claim_C8_counterexample :
    dspCleanup [] "x" = .error "ENOENT: ./temp/raw_x.wav" := rfl

/-- C8 amended: the guarded release used on the failure path of the
/api/translate-audio handler is idempotent and never errors: after one release
the path is gone, a second release is a no-op, and releasing a path that does
not exist returns the filesystem unchanged. -/
theorem claim_C8_guarded_release_idempotent (fs : FS) (p : String) :
    existsSync (guardedUnlink fs p) p = false ∧
    guardedUnlink (guardedUnlink fs p) p = guardedUnlink fs p ∧
    guardedUnlink (removeFile fs p) p = removeFile fs p := by
  have h1 : existsSync (guardedUnlink fs p) p = false := by
    unfold guardedUnlink
    split
    next => exact existsSync_removeFile fs p
    next h => simpa using h
  refine ⟨h1, ?_, ?_⟩
  · unfold guardedUnlink at h1 ⊢
    rw [h1]
    simp
  · simp [guardedUnlink, existsSync_removeFile fs p]

/-! ## Pipeline orchestration (index1.js and the unnamed server file) -/

/-- Pipeline stages that can originate a failure. -/
inductive PipeStage where
  | recognizing
  | translating
  | synthesizing
deriving DecidableEq

/-- Collaborator invocation events recorded during one run: a Call event is
emitted when a collaborator is invoked and a Ret event when its result has
arrived. -/
inductive Ev where
  | recognizeCall
  | recognizeRet
  | translateCall
  | translateRet
  | synthesizeCall
  | synthesizeRet
deriving DecidableEq

/-- Stubbed collaborator responses for one run of the index1.js pipeline: the
speech recognizer yields transcript strings (one per result), the translator a
translated text, the synthesizer the optional inlineData payload of the TTS
response. -/
structure Stubs where
  recognizer : Except String (List String)
  translator : Except String String
  synthesizer : Except String (Option String)

/-- `translateAndSynthesize` from index1.js: translate the Assamese text, call
the TTS collaborator, reject when no audio payload is present (missing or
empty), otherwise decode the base64 payload, view it as int16 samples and
re-encode with `pcmToWav` at 24000 Hz.  Returns the outcome together with the
collaborator trace. -/
def translateAndSynthesize (st : Stubs) (assameseText : String) :
    Except (PipeStage × String) (String × String × List Nat) × List Ev :=
  match st.translator with
  | .error m => (.error (.translating, m), [.translateCall])
  | .ok englishText =>
    match st.synthesizer with
    | .error m =>
        (.error (.synthesizing, m), [.translateCall, .translateRet, .synthesizeCall])
    | .ok audioData =>
      let tr := [Ev.translateCall, Ev.translateRet, Ev.synthesizeCall, Ev.synthesizeRet]
      match audioData with
      | none => (.error (.synthesizing, "Gemini did not return audio."), tr)
      | some payload =>
        if payload = "" then
          (.error (.synthesizing, "Gemini did not return audio."), tr)
        else
          match atob payload with
          | none => (.error (.synthesizing, "InvalidCharacterError"), tr)
          | some pcmData =>
            match int16ArrayOf pcmData with
            | .error m => (.error (.synthesizing, m), tr)
            | .ok pcm16 =>
                (.ok (assameseText, englishText, pcmToWav pcm16 24000), tr)

/-- `runTranslationPipeline` from index1.js: speech recognition first; the
transcripts are joined with newlines and an empty joined transcript rejects
with "Could not understand audio." before any later collaborator is invoked. -/
def runTranslationPipeline (st : Stubs) :
    Except (PipeStage × String) (String × String × List Nat) × List Ev :=
  match st.recognizer with
  | .error m => (.error (.recognizing, m), [.recognizeCall])
  | .ok results =>
    let assameseText := String.intercalate "\n" results
    if assameseText = "" then
      (.error (.recognizing, "Could not understand audio."),
        [.recognizeCall, .recognizeRet])
    else
      let step2 := translateAndSynthesize st assameseText
      (step2.1, [Ev.recognizeCall, Ev.recognizeRet] ++ step2.2)

/-- `speechToAssameseText` from the unnamed server file: rejects when the
transcription has no text (missing or empty). -/
def speechToAssameseText (transcriptionText : Option String) : Except String String :=
  match transcriptionText with
  | none => .error "Whisper failed to transcribe audio"
  | some t => if t = "" then .error "Whisper failed to transcribe audio" else .ok t

/-- `englishTextToSpeech` from the unnamed server file, over the stubbed TTS
response: rejects when no audio payload is present (missing or empty),
otherwise decodes the base64 payload into int16 samples and re-encodes it with
`pcmToWav` at 24000 Hz. -/
def englishTextToSpeech (ttsResponse : Except String (Option String)) :
    Except String (List Nat) :=
  match ttsResponse with
  | .error m => .error m
  | .ok none => .error "Gemini TTS did not return audio"
  | .ok (some payload) =>
    if payload = "" then .error "Gemini TTS did not return audio"
    else
      match atob payload with
      | none => .error "InvalidCharacterError"
      | some pcmData =>
        match int16ArrayOf pcmData with
        | .error m => .error m
        | .ok pcm16 => .ok (pcmToWav pcm16 24000)

/-- C4: an empty joined transcript fails the index1.js pipeline in the
recognition stage before the translator or synthesizer is invoked; the
Whisper-based recognizer of the unnamed server file likewise rejects a missing
or empty transcription. -/
theorem claim_C4_empty_transcript (st : Stubs) (results : List String)
    (hrec : st.recognizer = .ok results)
    (hempty : String.intercalate "\n" results = "") :
    (runTranslationPipeline st).1 =
        .error (.recognizing, "Could not understand audio.") ∧
    Ev.translateCall ∉ (runTranslationPipeline st).2 ∧
    Ev.synthesizeCall ∉ (runTranslationPipeline st).2 ∧
    speechToAssameseText none = .error "Whisper failed to transcribe audio" ∧
    speechToAssameseText (some "") = .error "Whisper failed to transcribe audio" := by
  simp [runTranslationPipeline, hrec, hempty, speechToAssameseText]

/-- C4 witness: the empty-transcript theorem applied to a recognizer stub that
returns no transcript at all. -/
theorem claim_C4_empty_transcript_witness :
    (Stubs.mk (.ok []) (.ok "t") (.ok none)).recognizer = .ok [] ∧
    String.intercalate "\n" [] = "" ∧
    (runTranslationPipeline (Stubs.mk (.ok []) (.ok "t") (.ok none))).1 =
      .error (.recognizing, "Could not understand audio.") :=
  ⟨rfl, rfl, (claim_C4_empty_transcript (Stubs.mk (.ok []) (.ok "t") (.ok none))
    [] rfl rfl).1⟩

theorem int16ArrayOf_ok (bytes : List Nat) (pcm16 : List Int)
    (h : int16ArrayOf bytes = .ok pcm16) :
    bytes.length % 2 = 0 ∧ pcm16 = decodePcm bytes := by
  unfold int16ArrayOf at h
  split at h
  next heven =>
    refine ⟨heven, ?_⟩
    injection h with h
    exact h.symm
  next => exact absurd h (by simp)

/-- C7: with translation successful, a missing or empty synthesizer payload
fails the run in the synthesizing stage; any completed run carries a container
obtained by decoding a non-empty payload into int16 samples and re-encoding
with `pcmToWav` at 24000 Hz; the unnamed server's TTS helper rejects missing or
empty payloads the same way. -/
theorem claim_C7_synthesis_contract (st : Stubs) (assameseText englishText : String)
    (htr : st.translator = .ok englishText) :
    ((st.synthesizer = .ok none ∨ st.synthesizer = .ok (some "")) →
      (translateAndSynthesize st assameseText).1 =
        .error (.synthesizing, "Gemini did not return audio.")) ∧
    (∀ a e wav, (translateAndSynthesize st assameseText).1 = .ok (a, e, wav) →
      ∃ payload bytes, st.synthesizer = .ok (some payload) ∧ payload ≠ "" ∧
        atob payload = some bytes ∧ bytes.length % 2 = 0 ∧
        wav = pcmToWav (decodePcm bytes) 24000) ∧
    englishTextToSpeech (.ok none) = .error "Gemini TTS did not return audio" ∧
    englishTextToSpeech (.ok (some "")) = .error "Gemini TTS did not return audio" := by
  refine ⟨?_, ?_, rfl, rfl⟩
  · rintro (h | h) <;> simp [translateAndSynthesize, htr, h]
  · intro a e wav h
    simp only [translateAndSynthesize, htr] at h
    split at h
    next => exact absurd h (by simp)
    next audioData hsyn =>
      split at h
      next => exact absurd h (by simp)
      next payload =>
        split at h
        next => exact absurd h (by simp)
        next hp =>
          split at h
          next => exact absurd h (by simp)
          next pcmData hatob =>
            split at h
            next => exact absurd h (by simp)
            next pcm16 hint =>
              obtain ⟨heven, hdec⟩ := int16ArrayOf_ok pcmData pcm16 hint
              simp only [Except.ok.injEq, Prod.mk.injEq] at h
              exact ⟨payload, pcmData, hsyn, hp, hatob, heven, by rw [← h.2.2, hdec]⟩

/-- C7 witness: the synthesis-contract theorem applied to concrete stubs. -/
theorem claim_C7_synthesis_contract_witness :
    (Stubs.mk (.ok ["h"]) (.ok "hello") (.ok (some "AAE="))).translator = .ok "hello" ∧
    englishTextToSpeech (.ok none) = .error "Gemini TTS did not return audio" :=
  ⟨rfl, (claim_C7_synthesis_contract (Stubs.mk (.ok ["h"]) (.ok "hello")
    (.ok (some "AAE="))) "a" "hello" rfl).2.2.1⟩

/-! ## Stage ordering and the /api/translate-audio handler -/

/-- Scan a trace checking stage ordering: a translation call is admissible only
after recognition has returned its result, a synthesis call only after
translation has returned its result. -/
def stagesOrdered : List Ev → Bool → Bool → Bool
  | [], _, _ => true
  | .recognizeCall :: rest, r, t => stagesOrdered rest r t
  | .recognizeRet :: rest, _, t => stagesOrdered rest true t
  | .translateCall :: rest, r, t => r && stagesOrdered rest r t
  | .translateRet :: rest, r, _ => stagesOrdered rest r true
  | .synthesizeCall :: rest, r, t => t && stagesOrdered rest r t
  | .synthesizeRet :: rest, r, t => stagesOrdered rest r t

theorem translateAndSynthesize_trace (st : Stubs) (a : String) :
    (translateAndSynthesize st a).2 = [.translateCall] ∨
    (translateAndSynthesize st a).2 = [.translateCall, .translateRet, .synthesizeCall] ∨
    (translateAndSynthesize st a).2 =
      [.translateCall, .translateRet, .synthesizeCall, .synthesizeRet] := by
  simp only [translateAndSynthesize]
  repeat' split
  all_goals simp

/-- Stubbed collaborator responses for the /api/translate-audio handler of the
unnamed server file: the Whisper transcription text, the translation result and
the optional TTS payload. -/
structure WStubs where
  whisper : Except String (Option String)
  translator : Except String String
  tts : Except String (Option String)

/-- HTTP response bodies: raw bytes or the structured error payload. -/
inductive Body where
  | bytes (b : List Nat)
  | jsonError (msg : String)
deriving DecidableEq

/-- An HTTP response: status, content type, the Content-Length header (explicit
or derived from the sent buffer), and the body. -/
structure Response where
  status : Nat
  contentType : String
  contentLength : Option Nat
  body : Body
deriving DecidableEq

/-- Path of the raw temp file of one handler run (unnamed server file line 155). -/
def rawPathW (id : String) : String := "./temp/raw_" ++ id ++ ".wav"

/-- Path of the cleaned temp file of one handler run (unnamed server file line 156). -/
def cleanedPathW (id : String) : String := "./temp/cleaned_" ++ id ++ ".wav"

/-- The catch branch of the /api/translate-audio handler: guarded cleanup of the
two endpoint temp files, then a 500 JSON error response. -/
def handlerCatch (fs : FS) (tempId : String) (tr : List Ev) (msg : String) :
    Response × FS × List Ev :=
  let fs1 := guardedUnlink fs (rawPathW tempId)
  let fs2 := guardedUnlink fs1 (cleanedPathW tempId)
  ({ status := 500, contentType := "application/json", contentLength := none,
     body := .jsonError msg }, fs2, tr)

/-- The /api/translate-audio handler of the unnamed server file: write the raw
upload, run the DSP stage (which allocates its own temp files under `dspId`),
write the cleaned buffer, then Whisper, translation and TTS strictly in
sequence; on success unlink both endpoint temp files and answer 200 audio/wav
with an exact Content-Length; on any thrown error run the guarded cleanup and
answer 500 JSON. -/
def translateAudioHandler (fs : FS) (tempId dspId : String) (file : Option (List Nat))
    (engine : FfmpegConfig → EngineResult) (st : WStubs) :
    Response × FS × List Ev :=
  match file with
  | none =>
      ({ status := 400, contentType := "application/json", contentLength := none,
         body := .jsonError "Audio file not provided" }, fs, [])
  | some buffer =>
    let fs1 := writeFileSync fs (rawPathW tempId) buffer
    let dsp := preprocessAudioDSP fs1 dspId buffer engine
    match dsp.result with
    | .error m => handlerCatch dsp.fs tempId [] m
    | .ok cleanedBuffer =>
      let fs2 := writeFileSync dsp.fs (cleanedPathW tempId) cleanedBuffer
      match st.whisper with
      | .error m => handlerCatch fs2 tempId [.recognizeCall] m
      | .ok transcriptionText =>
        match speechToAssameseText transcriptionText with
        | .error m => handlerCatch fs2 tempId [.recognizeCall, .recognizeRet] m
        | .ok _assameseText =>
          match st.translator with
          | .error m =>
              handlerCatch fs2 tempId
                [.recognizeCall, .recognizeRet, .translateCall] m
          | .ok _englishText =>
            match st.tts with
            | .error m =>
                handlerCatch fs2 tempId
                  [.recognizeCall, .recognizeRet, .translateCall, .translateRet,
                    .synthesizeCall] m
            | .ok payload =>
              let tr := [Ev.recognizeCall, Ev.recognizeRet, Ev.translateCall,
                Ev.translateRet, Ev.synthesizeCall, Ev.synthesizeRet]
              match englishTextToSpeech (.ok payload) with
              | .error m => handlerCatch fs2 tempId tr m
              | .ok finalAudioBuffer =>
                match unlinkSync fs2 (rawPathW tempId) with
                | .error m => handlerCatch fs2 tempId tr m
                | .ok fs3 =>
                  match unlinkSync fs3 (cleanedPathW tempId) with
                  | .error m => handlerCatch fs3 tempId tr m
                  | .ok fs4 =>
                      ({ status := 200, contentType := "audio/wav",
                         contentLength := some finalAudioBuffer.length,
                         body := .bytes finalAudioBuffer }, fs4, tr)

theorem translateAudioHandler_trace (fs : FS) (tempId dspId : String)
    (file : Option (List Nat)) (engine : FfmpegConfig → EngineResult) (st : WStubs) :
    (translateAudioHandler fs tempId dspId file engine st).2.2 = [] ∨
    (translateAudioHandler fs tempId dspId file engine st).2.2 = [.recognizeCall] ∨
    (translateAudioHandler fs tempId dspId file engine st).2.2 =
      [.recognizeCall, .recognizeRet] ∨
    (translateAudioHandler fs tempId dspId file engine st).2.2 =
      [.recognizeCall, .recognizeRet, .translateCall] ∨
    (translateAudioHandler fs tempId dspId file engine st).2.2 =
      [.recognizeCall, .recognizeRet, .translateCall, .translateRet,
        .synthesizeCall] ∨
    (translateAudioHandler fs tempId dspId file engine st).2.2 =
      [.recognizeCall, .recognizeRet, .translateCall, .translateRet,
        .synthesizeCall, .synthesizeRet] := by
  simp only [translateAudioHandler, handlerCatch]
  repeat' split
  all_goals simp

/-- C5: in every run of the index1.js pipeline and of the /api/translate-audio
handler, the recorded collaborator trace is stage-ordered: translation is never
invoked before recognition has returned its result, and synthesis is never
invoked before translation has returned its result. -/
theorem claim_C5_stage_ordering (st : Stubs) (fs : FS) (tempId dspId : String)
    (file : Option (List Nat)) (engine : FfmpegConfig → EngineResult) (wst : WStubs) :
    stagesOrdered (runTranslationPipeline st).2 false false = true ∧
    stagesOrdered (translateAudioHandler fs tempId dspId file engine wst).2.2
      false false = true := by
  constructor
  · simp only [runTranslationPipeline]
    split
    next m heq => rfl
    next results heq =>
      split
      next hempty => rfl
      next hne =>
        rcases translateAndSynthesize_trace st (String.intercalate "\n" results) with
          h | h | h <;> rw [h] <;> rfl
  · rcases translateAudioHandler_trace fs tempId dspId file engine wst with
      h | h | h | h | h | h <;> rw [h] <;> rfl

/-! ## index1.js HTTP endpoints -/

/-- The /api/translate endpoint of index1.js over the pipeline outcome: missing
upload is a 400 JSON error; a successful pipeline answers 200 audio/wav with an
explicit Content-Length equal to the buffer length; a thrown error answers 500
with the JSON error payload. -/
def apiTranslate (file : Option (List Nat)) (st : Stubs) : Response :=
  match file with
  | none =>
      { status := 400, contentType := "application/json", contentLength := none,
        body := .jsonError "No audio file provided." }
  | some _ =>
    match (runTranslationPipeline st).1 with
    | .ok r =>
        { status := 200, contentType := "audio/wav",
          contentLength := some r.2.2.length, body := .bytes r.2.2 }
    | .error e =>
        { status := 500, contentType := "application/json", contentLength := none,
          body := .jsonError e.2 }

/-- The /api/text-translate endpoint of index1.js: missing or empty text is a
400 JSON error; otherwise `translateAndSynthesize` runs and the response sends
the buffer as audio/wav, the Content-Length being derived from the sent buffer
by `res.send`. -/
def apiTextTranslate (text : Option String) (st : Stubs) : Response :=
  match text with
  | none =>
      { status := 400, contentType := "application/json", contentLength := none,
        body := .jsonError "No text provided." }
  | some t =>
    if t = "" then
      { status := 400, contentType := "application/json", contentLength := none,
        body := .jsonError "No text provided." }
    else
      match (translateAndSynthesize st t).1 with
      | .ok r =>
          { status := 200, contentType := "audio/wav",
            contentLength := some r.2.2.length, body := .bytes r.2.2 }
      | .error e =>
          { status := 500, contentType := "application/json", contentLength := none,
            body := .jsonError e.2 }

/-- Output contract of one response: a 2xx response is an audio/wav byte body
whose Content-Length equals the body byte length; any non-2xx response is a
structured JSON error payload. -/
def respOk (r : Response) : Bool :=
  if 200 ≤ r.status ∧ r.status < 300 then
    decide (r.contentType = "audio/wav") &&
      (match r.body, r.contentLength with
        | .bytes b, some n => decide (n = b.length)
        | _, _ => false)
  else
    match r.body with
    | .jsonError _ => true
    | _ => false

/-- C9: both index1.js endpoints answer every successful run with audio/wav and
a Content-Length equal to the encoded container length, and every failing run
with a JSON error payload and a non-2xx status. -/
theorem claim_C9_endpoint_contract (file : Option (List Nat)) (text : Option String)
    (st st2 : Stubs) :
    respOk (apiTranslate file st) = true ∧ respOk (apiTextTranslate text st2) = true := by
  constructor
  · simp only [apiTranslate]
    split
    · rfl
    · split <;> simp [respOk]
  · simp only [apiTextTranslate]
    split
    · rfl
    · split
      · rfl
      · split <;> simp [respOk]

end VoiceTranslation
